import Mathlib

/-!
Shallow embedding of the annotation engine in
AutoTender_Sovereign/autotender/annotator.py.

Python strings are modeled by Lean String; Python str.lower, str.strip and
the substring test `a in b` are modeled by pyLower, pyStrip and pyIn below
(ASCII case folding, which covers every string the program compares).
JSON documents are modeled by JVal; a parsed annotation record is modeled
by the structure Ann, whose Option fields record presence or absence of the
corresponding JSON key (a present key is assumed well typed, matching how
the program consumes the values).  A key access ann[k] on an absent key,
which raises KeyError in Python, is modeled by Except.error.
-/

/-- Model of Python str.lower (ASCII case folding on the character list). -/
def pyLower (s : String) : String := ⟨s.data.map Char.toLower⟩

/-- Model of Python str.strip: drop leading and trailing whitespace. -/
def pyStrip (s : String) : String :=
  ⟨((s.data.dropWhile Char.isWhitespace).reverse.dropWhile Char.isWhitespace).reverse⟩

/-- p is a leading segment of l. -/
def hasPfx : List Char → List Char → Bool
  | [], _ => true
  | _ :: _, [] => false
  | a :: ps, b :: ls => a == b && hasPfx ps ls

/-- p occurs contiguously somewhere in l (Python substring containment). -/
def hasSub (p : List Char) : List Char → Bool
  | [] => hasPfx p []
  | b :: ls => hasPfx p (b :: ls) || hasSub p ls

/-- Model of the Python expression `needle in hay` on strings. -/
def pyIn (needle hay : String) : Bool := hasSub needle.data hay.data

/-- One word token reported by the OCR engine: its text and the
(left, top, width, height) pixel bounding box. -/
structure OcrToken where
  text : String
  left : Int
  top : Int
  width : Int
  height : Int
deriving DecidableEq, Repr

/-- find_text_positions (annotator.py lines 54-65): keep, in OCR emission
order, the box of every token whose stripped lowercased text contains the
lowercased target as a substring. -/
def find_text_positions (tokens : List OcrToken) (target : String) :
    List (Int × Int × Int × Int) :=
  match tokens with
  | [] => []
  | tk :: rest =>
    if pyIn (pyLower target) (pyLower (pyStrip tk.text))
    then (tk.left, tk.top, tk.width, tk.height) :: find_text_positions rest target
    else find_text_positions rest target

/-- A parsed annotation record.  Each field is the value of the JSON key of
the same name (matchKey stands for the key "match"); none models an absent
key. -/
structure Ann where
  text : Option String
  x : Option Int
  y : Option Int
  size : Option Int
  color : Option String
  font : Option String
  matchKey : Option String
  offset_x : Option Int
  offset_y : Option Int
deriving DecidableEq, Repr

/-- One text drawn onto a raster image: position, text and PIL fill color
name, as passed to draw.text in annotate_image. -/
structure DrawOp where
  x : Int
  y : Int
  text : String
  color : String
deriving DecidableEq, Repr

/-- Sequential effectful map over a list, modeling a Python for loop whose
body may raise: the first raised error aborts the whole loop. -/
def mapE (f : α → Except String β) : List α → Except String (List β)
  | [] => .ok []
  | a :: as =>
    match f a with
    | .error e => .error e
    | .ok b =>
      match mapE f as with
      | .error e => .error e
      | .ok bs => .ok (b :: bs)

/-- Body of the annotation loop of annotate_image (annotator.py lines
78-95) for one record: ann["text"] is read first (KeyError when absent);
with "match" present the first OCR box plus offsets is used, falling back
to x/y (default 50) on a miss; without "match", ann["x"] and ann["y"] are
read (KeyError when absent).  Font loading never raises and is not part of
the drawn output, so it is omitted. -/
def resolveImageAnn (ocr : List OcrToken) (ann : Ann) : Except String DrawOp :=
  match ann.text with
  | none => .error "KeyError: text"
  | some t =>
    match ann.matchKey with
    | some target =>
      match find_text_positions ocr target with
      | (x0, y0, _, _) :: _ =>
        .ok { x := x0 + ann.offset_x.getD 0, y := y0 + ann.offset_y.getD 0,
              text := t, color := ann.color.getD "red" }
      | [] =>
        .ok { x := ann.x.getD 50, y := ann.y.getD 50,
              text := t, color := ann.color.getD "red" }
    | none =>
      match ann.x with
      | none => .error "KeyError: x"
      | some vx =>
        match ann.y with
        | none => .error "KeyError: y"
        | some vy =>
          .ok { x := vx, y := vy, text := t, color := ann.color.getD "red" }

/-- annotate_image (annotator.py lines 69-98): draw every record in order
onto the image; the output file is saved only after the loop finishes, so
Except.ok lists the draws of a written output and Except.error is an
aborted run with no output written.  ocr is the token list the OCR engine
yields on this image. -/
def annotate_image (ocr : List OcrToken) (anns : List Ann) :
    Except String (List DrawOp) :=
  mapE (resolveImageAnn ocr) anns

/-- An RGB fill; only components 0 and 1 occur in the program, so they are
kept as naturals. -/
structure RGB where
  r : Nat
  g : Nat
  b : Nat
deriving DecidableEq, Repr

/-- Color mapping of annotate_pdf (annotator.py lines 136-139):
case-insensitive "red" and "blue", anything else black. -/
def colorToRGB (c : String) : RGB :=
  if pyLower c = "red" then ⟨1, 0, 0⟩
  else if pyLower c = "blue" then ⟨0, 0, 1⟩
  else ⟨0, 0, 0⟩

/-- One drawString call recorded on a PDF overlay canvas: position, text,
font size and fill color. -/
structure PdfDrawOp where
  x : Int
  y : Int
  text : String
  size : Int
  fill : RGB
deriving DecidableEq, Repr

/-- An operator of a PDF page content stream: either an operator already
present on the original page (abstract, carried as an opaque code string)
or a text draw contributed by an overlay. -/
inductive ContentOp where
  | orig (code : String)
  | drawText (op : PdfDrawOp)
deriving DecidableEq, Repr

/-- One page of the input PDF together with its rasterization: width and
height of the image pdf2image renders for it, the tokens OCR yields on that
image, and the original page content. -/
structure PdfPage where
  width : Int
  height : Int
  ocr : List OcrToken
  content : List ContentOp
deriving DecidableEq, Repr

/-- A page of the output document: the original content with the overlay
draws merged on top of it. -/
structure MergedPage where
  base : List ContentOp
  overlay : List PdfDrawOp
deriving DecidableEq, Repr

/-- Content stream of a merged page: merge_page keeps the original content
beneath and appends the overlay draws on top. -/
def MergedPage.rendered (p : MergedPage) : List ContentOp :=
  p.base ++ p.overlay.map ContentOp.drawText

/-- Outcome of annotate_pdf: the early return when pdf2image is missing
(logger.error, no output written, no exception), a propagated KeyError
(no output written), or a written output document. -/
inductive PdfResult where
  | noOutput
  | keyError (e : String)
  | written (pagesOut : List MergedPage)
deriving DecidableEq, Repr

/-- Body of the annotation loop of annotate_pdf (annotator.py lines
122-140) for one record: x and y start from ann.get (default 50); with
"match" present the first OCR box replaces them, the y axis flipped to the
bottom-left PDF origin using the rasterized page height, and on a miss the
defaults are kept; ann["text"] is read at the drawString call (KeyError
when absent).  The fill is the mapped color, defaulting to "red". -/
def resolvePdfAnn (page : PdfPage) (ann : Ann) : Except String PdfDrawOp :=
  let x0 : Int := ann.x.getD 50
  let y0 : Int := ann.y.getD 50
  let xy : Int × Int :=
    match ann.matchKey with
    | some target =>
      match find_text_positions page.ocr target with
      | (xo, yo, _, _) :: _ =>
        (xo + ann.offset_x.getD 0, page.height - yo - ann.offset_y.getD 0)
      | [] => (x0, y0)
    | none => (x0, y0)
  match ann.text with
  | none => .error "KeyError: text"
  | some t =>
    .ok { x := xy.1, y := xy.2, text := t, size := ann.size.getD 12,
          fill := colorToRGB (ann.color.getD "red") }

/-- annotate_pdf (annotator.py lines 102-154): the import of pdf2image is
attempted first and a missing dependency returns at once with no output;
otherwise every page is rasterized, an overlay with every record is built
for it and merged onto the original page, and the output file is written
only after all pages succeed. -/
def annotate_pdf (avail : Bool) (pages : List PdfPage) (anns : List Ann) :
    PdfResult :=
  if avail then
    match mapE (fun p =>
      match mapE (resolvePdfAnn p) anns with
      | .error e => .error e
      | .ok ops => .ok (MergedPage.mk p.content ops)) pages with
    | .error e => .keyError e
    | .ok out => .written out
  else .noOutput

/-- A JSON value, as produced by json.load. -/
inductive JVal where
  | jnull
  | jbool (b : Bool)
  | jnum (n : Int)
  | jstr (s : String)
  | jarr (elems : List JVal)
  | jobj (fields : List (String × JVal))

/-- What the config path argument of annotate denotes: no path given, a
path that does not exist, or a path whose file exists and parses to the
given JSON document. -/
inductive ConfigSource where
  | noPath
  | missingFile
  | parsed (cfg : JVal)

/-- The built-in default config of load_config (annotator.py lines 23-27). -/
def defaultConfig : JVal :=
  .jobj [("annotations",
    .jarr [.jobj [("text", .jstr "SAMPLE"), ("x", .jnum 50), ("y", .jnum 50),
                  ("size", .jnum 14), ("color", .jstr "red")]])]

/-- load_config (annotator.py lines 19-39): no path yields the default
config; a missing file raises FileNotFoundError; a parsed document must
carry an "annotations" key whose value is a list, else ValueError.  A
parsed document that is not a JSON object also fails in Python (its key
test or subscript raises) and is mapped to the validation error. -/
def load_config : ConfigSource → Except String JVal
  | .noPath => .ok defaultConfig
  | .missingFile => .error "Config file not found"
  | .parsed cfg =>
    match cfg with
    | .jobj fields =>
      match fields.lookup "annotations" with
      | some (.jarr _) => .ok (.jobj fields)
      | _ => .error "Invalid config: must contain annotations list"
    | _ => .error "Invalid config: must contain annotations list"

/-- String value of a JSON value, none otherwise. -/
def asStr : JVal → Option String
  | .jstr s => some s
  | _ => none

/-- Integer value of a JSON value, none otherwise. -/
def asInt : JVal → Option Int
  | .jnum n => some n
  | _ => none

/-- Parse one JSON annotation record into an Ann: each field is the value
of the key of the same name when present (a record that is not an object
cannot answer any key access and parses to the all-absent record). -/
def annOf : JVal → Ann
  | .jobj fields =>
    { text := (fields.lookup "text").bind asStr
      x := (fields.lookup "x").bind asInt
      y := (fields.lookup "y").bind asInt
      size := (fields.lookup "size").bind asInt
      color := (fields.lookup "color").bind asStr
      font := (fields.lookup "font").bind asStr
      matchKey := (fields.lookup "match").bind asStr
      offset_x := (fields.lookup "offset_x").bind asInt
      offset_y := (fields.lookup "offset_y").bind asInt }
  | _ =>
    { text := none, x := none, y := none, size := none, color := none,
      font := none, matchKey := none, offset_x := none, offset_y := none }

/-- Model of config.get applied to the annotations key with default [],
followed by parsing each record. -/
def annsOf : JVal → List Ann
  | .jobj fields =>
    match fields.lookup "annotations" with
    | some (.jarr xs) => xs.map annOf
    | _ => []
  | _ => []

/-- The parts of the outside world annotate consults: existence of the
input file, its extension (Path.suffix, dot included, original case), the
OCR tokens of the input when it is an image, availability of pdf2image,
and the pages of the input when it is a PDF. -/
structure Env where
  inputExists : Bool
  ext : String
  imageOcr : List OcrToken
  pdf2imageAvailable : Bool
  pdfPages : List PdfPage

/-- Outcome of annotate: a config loading error, FileNotFoundError on the
input, the result of the image renderer, the result of the PDF renderer,
or ValueError for an unsupported extension. -/
inductive AnnotateResult where
  | configError (e : String)
  | inputNotFound
  | imageResult (r : Except String (List DrawOp))
  | pdfResult (r : PdfResult)
  | unsupportedFormat (ext : String)

/-- annotate (annotator.py lines 158-176): load the config first, then
check the input exists, then route on the lowercased extension; only the
extension decides the route. -/
def annotate (src : ConfigSource) (w : Env) : AnnotateResult :=
  match load_config src with
  | .error e => .configError e
  | .ok cfg =>
    if w.inputExists then
      let ext := pyLower w.ext
      if ext = ".jpg" ∨ ext = ".jpeg" ∨ ext = ".png" then
        .imageResult (annotate_image w.imageOcr (annsOf cfg))
      else if ext = ".pdf" then
        .pdfResult (annotate_pdf w.pdf2imageAvailable w.pdfPages (annsOf cfg))
      else .unsupportedFormat ext
    else .inputNotFound

/-- The empty word is a leading segment of every word. -/
theorem hasSub_nil_needle (l : List Char) : hasSub [] l = true := by
  cases l <;> simp [hasSub, hasPfx]

/-- The lowercased empty string is contained in every string, as in Python. -/
theorem pyIn_empty_needle (s : String) : pyIn (pyLower "") s = true := by
  have h : (pyLower "").data = [] := rfl
  simp [pyIn, h, hasSub_nil_needle]

/-- A loop whose body succeeds on every element collects all results. -/
theorem mapE_ok_of {α β : Type} (f : α → Except String β) (g : α → β)
    (xs : List α) (h : ∀ a ∈ xs, f a = .ok (g a)) :
    mapE f xs = .ok (xs.map g) := by
  induction xs with
  | nil => rfl
  | cons a as ih =>
    have ha : f a = .ok (g a) := h a (by simp)
    have hrest := ih (fun b hb => h b (by simp [hb]))
    simp [mapE, ha, hrest]

/-- A loop one of whose elements raises ends in an error. -/
theorem mapE_error_of {α β : Type} (f : α → Except String β) (xs : List α)
    (h : ∃ a ∈ xs, ∃ e, f a = .error e) :
    ∃ e2, mapE f xs = .error e2 := by
  induction xs with
  | nil => simp at h
  | cons a as ih =>
    rcases h with ⟨b, hb, e, he⟩
    rcases List.mem_cons.mp hb with hba | hbs
    · subst hba
      exact ⟨e, by simp [mapE, he]⟩
    · cases hfa : f a with
      | error e1 => exact ⟨e1, by simp [mapE, hfa]⟩
      | ok v =>
        rcases ih ⟨b, hbs, e, he⟩ with ⟨e2, h2⟩
        exact ⟨e2, by simp [mapE, hfa, h2]⟩

/-- With the empty target every OCR token matches, so one box is returned
per token, in emission order. -/
theorem find_all_empty_target (tokens : List OcrToken) :
    find_text_positions tokens "" =
      tokens.map (fun u => (u.left, u.top, u.width, u.height)) := by
  induction tokens with
  | nil => rfl
  | cons a as ih => simp [find_text_positions, pyIn_empty_needle, ih]

/-- Claim C3: for an annotation carrying a match that OCR resolves to a
first box (x0, y0, w, h), the drawn coordinates are (x0 + offset_x,
y0 + offset_y) on an image target and (x0 + offset_x,
page_height - y0 - offset_y) on a PDF target, offsets defaulting to 0. -/
theorem ocr_hit_coords (ocr : List OcrToken) (page : PdfPage) (ann : Ann)
    (target t : String) (x0 y0 w h : Int) (rest : List (Int × Int × Int × Int))
    (hm : ann.matchKey = some target) (ht : ann.text = some t)
    (hocr : find_text_positions ocr target = (x0, y0, w, h) :: rest)
    (hpage : page.ocr = ocr) :
    (∃ op, resolveImageAnn ocr ann = .ok op ∧
      op.x = x0 + ann.offset_x.getD 0 ∧ op.y = y0 + ann.offset_y.getD 0) ∧
    (∃ op, resolvePdfAnn page ann = .ok op ∧
      op.x = x0 + ann.offset_x.getD 0 ∧
      op.y = page.height - y0 - ann.offset_y.getD 0) := by
  constructor
  · refine ⟨{ x := x0 + ann.offset_x.getD 0, y := y0 + ann.offset_y.getD 0,
              text := t, color := ann.color.getD "red" }, ?_, rfl, rfl⟩
    simp [resolveImageAnn, hm, ht, hocr]
  · refine ⟨{ x := x0 + ann.offset_x.getD 0,
              y := page.height - y0 - ann.offset_y.getD 0,
              text := t, size := ann.size.getD 12,
              fill := colorToRGB (ann.color.getD "red") }, ?_, rfl, rfl⟩
    simp [resolvePdfAnn, hm, ht, hpage, hocr]

/-- Closed instance of ocr_hit_coords: the token "Total:" at box
(300, 100, 50, 20) with offsets (5, -5) on a page of height 792 places the
text at (305, 95) on the image and (305, 697) on the PDF. -/
theorem ocr_hit_coords_witness :
    (∃ op, resolveImageAnn [⟨"Total:", 300, 100, 50, 20⟩]
        { text := some "PAID", x := none, y := none, size := some 20,
          color := some "blue", font := none, matchKey := some "Total",
          offset_x := some 5, offset_y := some (-5) } = .ok op ∧
        op.x = 305 ∧ op.y = 95) ∧
    (∃ op, resolvePdfAnn
        { width := 612, height := 792, ocr := [⟨"Total:", 300, 100, 50, 20⟩],
          content := [] }
        { text := some "PAID", x := none, y := none, size := some 20,
          color := some "blue", font := none, matchKey := some "Total",
          offset_x := some 5, offset_y := some (-5) } = .ok op ∧
        op.x = 305 ∧ op.y = 697) := by
  exact ocr_hit_coords [⟨"Total:", 300, 100, 50, 20⟩]
    { width := 612, height := 792, ocr := [⟨"Total:", 300, 100, 50, 20⟩],
      content := [] }
    { text := some "PAID", x := none, y := none, size := some 20,
      color := some "blue", font := none, matchKey := some "Total",
      offset_x := some 5, offset_y := some (-5) }
    "Total" "PAID" 300 100 50 20 [] rfl rfl rfl rfl

/-- Claim C4: for an annotation carrying a match that OCR does not resolve,
both targets fall back to the literal x and y (50 when absent), with no
axis flip and no offsets, and the record still draws (no error). -/
theorem ocr_miss_coords (ocr : List OcrToken) (page : PdfPage) (ann : Ann)
    (target t : String)
    (hm : ann.matchKey = some target) (ht : ann.text = some t)
    (hocr : find_text_positions ocr target = [])
    (hpage : page.ocr = ocr) :
    resolveImageAnn ocr ann =
      .ok { x := ann.x.getD 50, y := ann.y.getD 50, text := t,
            color := ann.color.getD "red" } ∧
    resolvePdfAnn page ann =
      .ok { x := ann.x.getD 50, y := ann.y.getD 50, text := t,
            size := ann.size.getD 12,
            fill := colorToRGB (ann.color.getD "red") } := by
  constructor
  · simp [resolveImageAnn, hm, ht, hocr]
  · simp [resolvePdfAnn, hm, ht, hpage, hocr]

/-- Closed instance of ocr_miss_coords: no token contains "Total", so the
annotation lands at its literal (70, 80) on both targets, and a second
annotation without literal coordinates lands at (50, 50). -/
theorem ocr_miss_coords_witness :
    resolveImageAnn [⟨"Subtotal", 1, 2, 3, 4⟩]
      { text := some "PAID", x := some 70, y := some 80, size := none,
        color := none, font := none, matchKey := some "Totals",
        offset_x := some 5, offset_y := some (-5) } =
      .ok { x := 70, y := 80, text := "PAID", color := "red" } ∧
    resolvePdfAnn
      { width := 612, height := 792, ocr := [⟨"Subtotal", 1, 2, 3, 4⟩],
        content := [] }
      { text := some "PAID", x := some 70, y := some 80, size := none,
        color := none, font := none, matchKey := some "Totals",
        offset_x := some 5, offset_y := some (-5) } =
      .ok { x := 70, y := 80, text := "PAID", size := 12,
            fill := ⟨1, 0, 0⟩ } := by
  exact ocr_miss_coords [⟨"Subtotal", 1, 2, 3, 4⟩]
    { width := 612, height := 792, ocr := [⟨"Subtotal", 1, 2, 3, 4⟩],
      content := [] }
    { text := some "PAID", x := some 70, y := some 80, size := none,
      color := none, font := none, matchKey := some "Totals",
      offset_x := some 5, offset_y := some (-5) }
    "Totals" "PAID" rfl rfl rfl rfl

/-- Claim C5: when pdf2image is unavailable, annotate_pdf ends in the
no-output outcome for every input: nothing is written and no exception is
propagated to the caller. -/
theorem pdf2image_unavailable (pages : List PdfPage) (anns : List Ann) :
    annotate_pdf false pages anns = PdfResult.noOutput := rfl

/-- Claim C6: the color mapping of the PDF renderer is total and
case-insensitive: lowercase form "red" gives RGB(1,0,0), "blue" gives
RGB(0,0,1), everything else black, and an absent color key defaults to
"red", giving the red fill. -/
theorem color_mapping (s : String) (ann : Ann) (page : PdfPage) (t : String)
    (hc : ann.color = none) (ht : ann.text = some t) :
    (pyLower s = "red" → colorToRGB s = ⟨1, 0, 0⟩) ∧
    (pyLower s = "blue" → colorToRGB s = ⟨0, 0, 1⟩) ∧
    (pyLower s ≠ "red" → pyLower s ≠ "blue" → colorToRGB s = ⟨0, 0, 0⟩) ∧
    (resolvePdfAnn page ann).map PdfDrawOp.fill = .ok ⟨1, 0, 0⟩ := by
  refine ⟨fun h1 => by simp [colorToRGB, h1],
          fun h1 => by simp [colorToRGB, h1],
          fun h1 h2 => by simp [colorToRGB, h1, h2], ?_⟩
  simp [resolvePdfAnn, ht, hc]
  rfl

/-- Closed instance of color_mapping: "RED" maps to RGB(1,0,0), "BLUE" to
RGB(0,0,1), "green" to black, and an annotation without a color key draws
with the red fill. -/
theorem color_mapping_witness :
    colorToRGB "RED" = ⟨1, 0, 0⟩ ∧ colorToRGB "BLUE" = ⟨0, 0, 1⟩ ∧
    colorToRGB "green" = ⟨0, 0, 0⟩ ∧
    (resolvePdfAnn { width := 612, height := 792, ocr := [], content := [] }
      { text := some "A", x := some 1, y := some 2, size := none,
        color := none, font := none, matchKey := none,
        offset_x := none, offset_y := none }).map PdfDrawOp.fill =
      .ok ⟨1, 0, 0⟩ := by
  refine ⟨?_, ?_, ?_, ?_⟩
  · exact (color_mapping "RED"
      { text := some "A", x := some 1, y := some 2, size := none,
        color := none, font := none, matchKey := none,
        offset_x := none, offset_y := none }
      { width := 612, height := 792, ocr := [], content := [] }
      "A" rfl rfl).1 (by rfl)
  · exact (color_mapping "BLUE"
      { text := some "A", x := some 1, y := some 2, size := none,
        color := none, font := none, matchKey := none,
        offset_x := none, offset_y := none }
      { width := 612, height := 792, ocr := [], content := [] }
      "A" rfl rfl).2.1 (by rfl)
  · exact (color_mapping "green"
      { text := some "A", x := some 1, y := some 2, size := none,
        color := none, font := none, matchKey := none,
        offset_x := none, offset_y := none }
      { width := 612, height := 792, ocr := [], content := [] }
      "A" rfl rfl).2.2.1 (by decide) (by decide)
  · exact (color_mapping "green"
      { text := some "A", x := some 1, y := some 2, size := none,
        color := none, font := none, matchKey := none,
        offset_x := none, offset_y := none }
      { width := 612, height := 792, ocr := [], content := [] }
      "A" rfl rfl).2.2.2

/-- Claim C9: annotating a PDF with an empty annotations list writes an
output with the same page count whose every page renders to exactly the
original content: merging the empty overlay is a no-op. -/
theorem empty_overlay_noop (pages : List PdfPage) :
    ∃ out, annotate_pdf true pages [] = .written out ∧
      out.length = pages.length ∧
      out.map MergedPage.rendered = pages.map PdfPage.content := by
  have h : mapE (fun p : PdfPage =>
      match mapE (resolvePdfAnn p) ([] : List Ann) with
      | .error e => .error e
      | .ok ops => .ok (MergedPage.mk p.content ops)) pages =
      .ok (pages.map fun p => MergedPage.mk p.content []) :=
    mapE_ok_of _ _ pages (fun p _ => by simp [mapE])
  refine ⟨pages.map fun p => MergedPage.mk p.content [], ?_, by simp, ?_⟩
  · simp [annotate_pdf, h]
  · simp [MergedPage.rendered]

/-- Claim C10: with the empty match target every OCR token matches, so the
returned boxes list one box per token in order, and an annotation with
match set to the empty string is placed at the box of the first token (plus
offsets) whenever OCR emits at least one token; its literal x and y are
ignored. -/
theorem empty_match_first_token (tokens : List OcrToken) (ann : Ann)
    (t : String) (tk : OcrToken) (rest : List OcrToken)
    (hm : ann.matchKey = some "") (ht : ann.text = some t)
    (htoks : tokens = tk :: rest) :
    find_text_positions tokens "" =
      tokens.map (fun u => (u.left, u.top, u.width, u.height)) ∧
    resolveImageAnn tokens ann =
      .ok { x := tk.left + ann.offset_x.getD 0,
            y := tk.top + ann.offset_y.getD 0,
            text := t, color := ann.color.getD "red" } := by
  subst htoks
  refine ⟨find_all_empty_target _, ?_⟩
  simp [resolveImageAnn, hm, ht, find_all_empty_target, find_text_positions,
    pyIn_empty_needle]

/-- A record without a match key and with a text resolves on a PDF page to
the literal coordinates with defaults. -/
theorem resolvePdfAnn_manual (p : PdfPage) (a : Ann) (t : String)
    (hm : a.matchKey = none) (ht : a.text = some t) :
    resolvePdfAnn p a =
      .ok { x := a.x.getD 50, y := a.y.getD 50, text := t,
            size := a.size.getD 12,
            fill := colorToRGB (a.color.getD "red") } := by
  simp [resolvePdfAnn, hm, ht]

/-- A record without a text key fails to resolve on a PDF page. -/
theorem resolvePdfAnn_noText (p : PdfPage) (a : Ann) (ht : a.text = none) :
    resolvePdfAnn p a = .error "KeyError: text" := by
  simp [resolvePdfAnn, ht]

/-- Over a manual-only record list the PDF annotation loop succeeds and
collects one draw per record. -/
theorem mapE_resolvePdf_manual (p : PdfPage) (anns : List Ann)
    (h : ∀ a ∈ anns, a.matchKey = none ∧ a.text.isSome) :
    mapE (resolvePdfAnn p) anns =
      .ok (anns.map fun a =>
        { x := a.x.getD 50, y := a.y.getD 50, text := a.text.getD "",
          size := a.size.getD 12,
          fill := colorToRGB (a.color.getD "red") }) := by
  apply mapE_ok_of
  intro a ha
  rcases h a ha with ⟨hm, hs⟩
  rcases Option.isSome_iff_exists.mp hs with ⟨t, ht⟩
  rw [resolvePdfAnn_manual p a t hm ht]
  simp [ht]

/-- A record missing one of the keys the image loop reads fails to
resolve. -/
theorem resolveImageAnn_error (ocr : List OcrToken) (a : Ann)
    (h : a.text = none ∨ (a.matchKey = none ∧ (a.x = none ∨ a.y = none))) :
    ∃ e, resolveImageAnn ocr a = .error e := by
  rcases h with ht | ⟨hm, hxy⟩
  · exact ⟨"KeyError: text", by simp [resolveImageAnn, ht]⟩
  · cases hta : a.text with
    | none => exact ⟨"KeyError: text", by simp [resolveImageAnn, hta]⟩
    | some t =>
      rcases hxy with hx | hy
      · exact ⟨"KeyError: x", by simp [resolveImageAnn, hta, hm, hx]⟩
      · cases hxa : a.x with
        | none => exact ⟨"KeyError: x", by simp [resolveImageAnn, hta, hm, hxa]⟩
        | some vx =>
          exact ⟨"KeyError: y", by simp [resolveImageAnn, hta, hm, hxa, hy]⟩

/-- Claim C1 fails on the code: even a config with only manual placements
writes nothing when pdf2image is unavailable, because annotate_pdf imports
and uses the rasterizer unconditionally. -/
theorem manual_pdf_counterexample :
    annotate_pdf false
      [{ width := 612, height := 792, ocr := [],
         content := [ContentOp.orig "q"] }]
      [{ text := some "PAID", x := some 100, y := some 200, size := some 20,
         color := some "blue", font := none, matchKey := none,
         offset_x := none, offset_y := none }] = PdfResult.noOutput := rfl

/-- Claim C1 amended: for a config of manual placements each carrying a
text, a PDF run with pdf2image available succeeds and draws, on every page,
exactly the texts and mapped colors of the config in order; with pdf2image
unavailable the run ends with no output written. -/
theorem manual_pdf_drawn (pages : List PdfPage) (anns : List Ann)
    (h : ∀ a ∈ anns, a.matchKey = none ∧ a.text.isSome) :
    (∃ out, annotate_pdf true pages anns = .written out ∧
      out.length = pages.length ∧
      out.map (fun p => p.overlay.map (fun o => (o.text, o.fill))) =
        pages.map (fun _ => anns.map (fun a =>
          (a.text.getD "", colorToRGB (a.color.getD "red"))))) ∧
    annotate_pdf false pages anns = PdfResult.noOutput := by
  refine ⟨?_, rfl⟩
  have hout := mapE_ok_of
    (fun p : PdfPage =>
      match mapE (resolvePdfAnn p) anns with
      | .error e => .error e
      | .ok ops => .ok (MergedPage.mk p.content ops))
    (fun p => MergedPage.mk p.content (anns.map fun a =>
      { x := a.x.getD 50, y := a.y.getD 50, text := a.text.getD "",
        size := a.size.getD 12,
        fill := colorToRGB (a.color.getD "red") }))
    pages
    (fun p _ => by simp [mapE_resolvePdf_manual p anns h])
  refine ⟨pages.map (fun p => MergedPage.mk p.content (anns.map fun a =>
      { x := a.x.getD 50, y := a.y.getD 50, text := a.text.getD "",
        size := a.size.getD 12,
        fill := colorToRGB (a.color.getD "red") })), ?_, by simp, ?_⟩
  · simp [annotate_pdf, hout]
  · rw [List.map_map]
    congr 1
    funext p
    simp [Function.comp, List.map_map]

/-- Closed instance of manual_pdf_drawn: one manual blue "PAID" record on a
one-page PDF draws ("PAID", blue) when pdf2image is available and writes
nothing when it is not. -/
theorem manual_pdf_drawn_witness :
    (∃ out, annotate_pdf true
        [{ width := 612, height := 792, ocr := [],
           content := [ContentOp.orig "q"] }]
        [{ text := some "PAID", x := some 100, y := some 200, size := some 20,
           color := some "blue", font := none, matchKey := none,
           offset_x := none, offset_y := none }] = .written out ∧
      out.length = 1 ∧
      out.map (fun p => p.overlay.map (fun o => (o.text, o.fill))) =
        [[("PAID", ⟨0, 0, 1⟩)]]) ∧
    annotate_pdf false
      [{ width := 612, height := 792, ocr := [],
         content := [ContentOp.orig "q"] }]
      [{ text := some "PAID", x := some 100, y := some 200, size := some 20,
         color := some "blue", font := none, matchKey := none,
         offset_x := none, offset_y := none }] = PdfResult.noOutput := by
  exact manual_pdf_drawn
    [{ width := 612, height := 792, ocr := [],
       content := [ContentOp.orig "q"] }]
    [{ text := some "PAID", x := some 100, y := some 200, size := some 20,
       color := some "blue", font := none, matchKey := none,
       offset_x := none, offset_y := none }]
    (by intro a ha; simp at ha; subst ha; exact ⟨rfl, rfl⟩)

/-- Claim C2 fails on the code: a config whose annotations list is empty
passes load_config unchanged, so passing does not guarantee a non-empty
list. -/
theorem load_config_counterexample :
    load_config (.parsed (.jobj [("annotations", .jarr [])])) =
      .ok (.jobj [("annotations", .jarr [])]) ∧
    annsOf (.jobj [("annotations", .jarr [])]) = [] := ⟨rfl, rfl⟩

/-- Claim C2 amended: for a parsed JSON object config, load_config accepts
exactly when the annotations key holds a JSON list, possibly empty, and
fails with the validation error otherwise; emptiness is not checked. -/
theorem load_config_exact (fields : List (String × JVal)) :
    (∀ xs, fields.lookup "annotations" = some (.jarr xs) →
      load_config (.parsed (.jobj fields)) = .ok (.jobj fields)) ∧
    ((∀ xs, fields.lookup "annotations" ≠ some (.jarr xs)) →
      load_config (.parsed (.jobj fields)) =
        .error "Invalid config: must contain annotations list") := by
  constructor
  · intro xs hxs
    simp [load_config, hxs]
  · intro hno
    cases hl : fields.lookup "annotations" with
    | none => simp [load_config, hl]
    | some v =>
      cases v with
      | jarr xs => exact absurd hl (hno xs)
      | jnull => simp [load_config, hl]
      | jbool b => simp [load_config, hl]
      | jnum n => simp [load_config, hl]
      | jstr s => simp [load_config, hl]
      | jobj fs => simp [load_config, hl]

/-- Closed instance of load_config_exact: a one-element annotations list is
accepted and an annotations key holding a number is rejected. -/
theorem load_config_exact_witness :
    load_config (.parsed (.jobj [("annotations", .jarr [.jstr "a"])])) =
      .ok (.jobj [("annotations", .jarr [.jstr "a"])]) ∧
    load_config (.parsed (.jobj [("annotations", .jnum 3)])) =
      .error "Invalid config: must contain annotations list" := by
  constructor
  · exact (load_config_exact _).1 [.jstr "a"] rfl
  · refine (load_config_exact _).2 ?_
    intro xs h
    exact JVal.noConfusion (Option.some.inj h)

/-- Claim C7: annotate loads the config first, then checks the input
exists, then routes on the lowercased extension: jpg, jpeg and png to the
image renderer, pdf to the PDF renderer, anything else to the unsupported
format error with no renderer invoked; only the extension decides. -/
theorem annotate_routes (src : ConfigSource) (w : Env) :
    (∀ e, load_config src = .error e → annotate src w = .configError e) ∧
    (∀ cfg, load_config src = .ok cfg → w.inputExists = false →
      annotate src w = .inputNotFound) ∧
    (∀ cfg, load_config src = .ok cfg → w.inputExists = true →
      ((pyLower w.ext = ".jpg" ∨ pyLower w.ext = ".jpeg" ∨
          pyLower w.ext = ".png") →
        annotate src w = .imageResult (annotate_image w.imageOcr (annsOf cfg))) ∧
      (pyLower w.ext = ".pdf" →
        annotate src w =
          .pdfResult (annotate_pdf w.pdf2imageAvailable w.pdfPages (annsOf cfg))) ∧
      (pyLower w.ext ≠ ".jpg" → pyLower w.ext ≠ ".jpeg" →
        pyLower w.ext ≠ ".png" → pyLower w.ext ≠ ".pdf" →
        annotate src w = .unsupportedFormat (pyLower w.ext))) := by
  refine ⟨?_, ?_, ?_⟩
  · intro e he
    simp [annotate, he]
  · intro cfg hc hex
    simp [annotate, hc, hex]
  · intro cfg hc hex
    refine ⟨?_, ?_, ?_⟩
    · rintro (hext | hext | hext) <;> simp [annotate, hc, hex, hext]
    · intro hext
      simp [annotate, hc, hex, hext]
    · intro h1 h2 h3 h4
      simp [annotate, hc, hex, h1, h2, h3, h4]

/-- Closed instance of annotate_routes: a missing config file surfaces as
the config error whatever the input; with the default config an existing
input named with extension .TXT is rejected as unsupported (lowercased to
.txt) and one named .PDF is routed to the PDF renderer. -/
theorem annotate_routes_witness :
    annotate .missingFile
      { inputExists := true, ext := ".pdf", imageOcr := [],
        pdf2imageAvailable := true, pdfPages := [] } =
      .configError "Config file not found" ∧
    annotate .noPath
      { inputExists := true, ext := ".TXT", imageOcr := [],
        pdf2imageAvailable := true, pdfPages := [] } =
      .unsupportedFormat ".txt" ∧
    annotate .noPath
      { inputExists := true, ext := ".PDF", imageOcr := [],
        pdf2imageAvailable := false, pdfPages := [] } =
      .pdfResult PdfResult.noOutput := by
  refine ⟨?_, ?_, ?_⟩
  · exact (annotate_routes .missingFile
      { inputExists := true, ext := ".pdf", imageOcr := [],
        pdf2imageAvailable := true, pdfPages := [] }).1
      "Config file not found" rfl
  · exact ((annotate_routes .noPath
      { inputExists := true, ext := ".TXT", imageOcr := [],
        pdf2imageAvailable := true, pdfPages := [] }).2.2
      defaultConfig rfl rfl).2.2 (by decide) (by decide) (by decide) (by decide)
  · exact ((annotate_routes .noPath
      { inputExists := true, ext := ".PDF", imageOcr := [],
        pdf2imageAvailable := false, pdfPages := [] }).2.2
      defaultConfig rfl rfl).2.1 (by decide)

/-- Claim C8 fails on the code in PDF mode: a record that is not
anchor-based and has no x and no y does not abort annotate_pdf; it is
drawn at the default (50, 50) and the output is written. -/
theorem missing_key_counterexample :
    annotate_pdf true
      [{ width := 612, height := 792, ocr := [],
         content := [ContentOp.orig "q"] }]
      [{ text := some "A", x := none, y := none, size := none, color := none,
         font := none, matchKey := none, offset_x := none,
         offset_y := none }] =
      PdfResult.written
        [{ base := [ContentOp.orig "q"],
           overlay := [{ x := 50, y := 50, text := "A", size := 12,
                         fill := ⟨1, 0, 0⟩ }] }] := rfl

/-- Claim C8 amended: in image mode a record missing text, or missing x or
y while not anchor-based, aborts the run with a key-access error and no
output is written; in PDF mode only a missing text aborts (absent x and y
fall back to 50); in both modes output exists only in the fully successful
outcome. -/
theorem missing_key_aborts (ocr : List OcrToken) (anns : List Ann)
    (pages : List PdfPage) :
    ((∃ a ∈ anns, a.text = none ∨
        (a.matchKey = none ∧ (a.x = none ∨ a.y = none))) →
      ∃ e, annotate_image ocr anns = .error e) ∧
    (pages ≠ [] → (∃ a ∈ anns, a.text = none) →
      ∃ e, annotate_pdf true pages anns = .keyError e) := by
  constructor
  · intro hbad
    rcases hbad with ⟨a, ha, hcond⟩
    rcases resolveImageAnn_error ocr a hcond with ⟨e, he⟩
    exact mapE_error_of _ _ ⟨a, ha, e, he⟩
  · intro hne hbad
    cases pages with
    | nil => exact absurd rfl hne
    | cons p ps =>
      rcases hbad with ⟨a, ha, hta⟩
      rcases mapE_error_of (resolvePdfAnn p) anns
          ⟨a, ha, "KeyError: text", resolvePdfAnn_noText p a hta⟩ with ⟨e, he⟩
      rcases mapE_error_of (fun q : PdfPage =>
          match mapE (resolvePdfAnn q) anns with
          | .error e => .error e
          | .ok ops => .ok (MergedPage.mk q.content ops)) (p :: ps)
          ⟨p, by simp, e, by simp [he]⟩ with ⟨e2, he2⟩
      exact ⟨e2, by simp [annotate_pdf, he2]⟩

/-- Closed instance of missing_key_aborts: an image record without x
aborts the image run, and a PDF record without text aborts the PDF run. -/
theorem missing_key_aborts_witness :
    (∃ e, annotate_image []
      [{ text := some "A", x := none, y := some 2, size := none,
         color := none, font := none, matchKey := none,
         offset_x := none, offset_y := none }] = .error e) ∧
    (∃ e, annotate_pdf true
      [{ width := 612, height := 792, ocr := [], content := [] }]
      [{ text := none, x := some 1, y := some 2, size := none,
         color := none, font := none, matchKey := none,
         offset_x := none, offset_y := none }] = .keyError e) := by
  constructor
  · exact (missing_key_aborts []
      [{ text := some "A", x := none, y := some 2, size := none,
         color := none, font := none, matchKey := none,
         offset_x := none, offset_y := none }] []).1
      ⟨{ text := some "A", x := none, y := some 2, size := none,
         color := none, font := none, matchKey := none,
         offset_x := none, offset_y := none }, by simp,
        Or.inr ⟨rfl, Or.inl rfl⟩⟩
  · exact (missing_key_aborts []
      [{ text := none, x := some 1, y := some 2, size := none,
         color := none, font := none, matchKey := none,
         offset_x := none, offset_y := none }]
      [{ width := 612, height := 792, ocr := [], content := [] }]).2
      (List.cons_ne_nil _ _)
      ⟨{ text := none, x := some 1, y := some 2, size := none,
         color := none, font := none, matchKey := none,
         offset_x := none, offset_y := none }, by simp, rfl⟩

/-- Closed instance of empty_match_first_token: two tokens, the first
whitespace-only, still both match the empty target, and the annotation is
drawn at the box (10, 20) of the first token, not at its literal (7, 8). -/
theorem empty_match_first_token_witness :
    find_text_positions [⟨" ", 10, 20, 5, 5⟩, ⟨"abc", 30, 40, 9, 9⟩] "" =
      [(10, 20, 5, 5), (30, 40, 9, 9)] ∧
    resolveImageAnn [⟨" ", 10, 20, 5, 5⟩, ⟨"abc", 30, 40, 9, 9⟩]
      { text := some "A", x := some 7, y := some 8, size := none,
        color := none, font := none, matchKey := some "",
        offset_x := none, offset_y := none } =
      .ok { x := 10, y := 20, text := "A", color := "red" } := by
  exact empty_match_first_token [⟨" ", 10, 20, 5, 5⟩, ⟨"abc", 30, 40, 9, 9⟩]
    { text := some "A", x := some 7, y := some 8, size := none,
      color := none, font := none, matchKey := some "",
      offset_x := none, offset_y := none }
    "A" ⟨" ", 10, 20, 5, 5⟩ [⟨"abc", 30, 40, 9, 9⟩] rfl rfl rfl
